import Mathlib

/-!
Verification of the `Select` conditional expression node
(`Eigen/src/Core/Select.h`): the coefficient-wise ternary operator of the
lazy expression-template framework.  Operand expressions are embedded as
shapes together with their two coefficient accessors; the trait descriptor
layer is embedded as a record of static metadata.
-/

namespace Eigen

/-- A dense expression operand as seen through the expression-node contract:
a runtime shape together with the two coefficient accessors every node
exposes, `coeff(row, col)` and the linear `coeff(index)`. -/
structure Mat (α : Type) where
  rows : Nat
  cols : Nat
  coeff2 : Nat → Nat → α
  coeff1 : Nat → α

/-- Modelled from the spec: the constant-expression factory
`Constant(rows, cols, value)` consumed from the base expression capability
(spec section 6), a constant-valued expression of the given shape filled
uniformly with the value.  Its definition lives outside the given source
file. -/
def Mat.Constant {α : Type} (rows cols : Nat) (v : α) : Mat α :=
  { rows := rows, cols := cols, coeff2 := fun _ _ => v, coeff1 := fun _ => v }

/-- The conditional expression node `Select`: it stores its three operands
`m_condition`, `m_then`, `m_else` (source lines 101-104).  Nested storage is
modelled by value; the ownership selection between copy and reference is a
storage-layout decision with no observable effect on coefficient reads. -/
structure Select (β α : Type) where
  m_condition : Mat β
  m_then : Mat α
  m_else : Mat α

/-- The shape assertions run by the `Select` constructor, exactly as written
on source lines 78-79: the condition rows must equal the then rows and the
else rows, and likewise for the columns. -/
def Select.assertOk {β α : Type} (c : Mat β) (t e : Mat α) : Bool :=
  (c.rows == t.rows && c.rows == e.rows) && (c.cols == t.cols && c.cols == e.cols)

/-- Construction of a `Select` node (source lines 73-80): the operands are
stored and the shape assertions are checked; a failed assertion is a fatal
precondition violation, embedded as `none`. -/
def Select.make {β α : Type} (c : Mat β) (t e : Mat α) : Option (Select β α) :=
  if Select.assertOk c t e then
    some { m_condition := c, m_then := t, m_else := e }
  else
    none

/-- `Select::rows()` (source line 82): the condition operand's row count. -/
def Select.rows {β α : Type} (s : Select β α) : Nat := s.m_condition.rows

/-- `Select::cols()` (source line 83): the condition operand's column
count. -/
def Select.cols {β α : Type} (s : Select β α) : Nat := s.m_condition.cols

/-- `Select::coeff(Index i, Index j)` (source lines 85-91): dispatch on the
condition coefficient.  The C++ test `if (m_condition.coeff(i,j))` converts
the condition scalar to `bool` by comparing it against the zero (false) value
of the condition element type, passed here as `zero`. -/
def Select.coeff {β α : Type} [DecidableEq β] (zero : β) (s : Select β α)
    (i j : Nat) : α :=
  if s.m_condition.coeff2 i j ≠ zero then s.m_then.coeff2 i j
  else s.m_else.coeff2 i j

/-- `Select::coeff(Index i)` (source lines 93-99): the same dispatch through
the single linear index. -/
def Select.coeffLin {β α : Type} [DecidableEq β] (zero : β) (s : Select β α)
    (i : Nat) : α :=
  if s.m_condition.coeff1 i ≠ zero then s.m_then.coeff1 i
  else s.m_else.coeff1 i

/-- A coefficient read written as a call on the node state, in explicit
state-passing form: the source method is `const` and the node has no mutable
member, so the call returns the read value together with the node it leaves
behind, which is the node it was given. -/
def Select.coeffCall {β α : Type} [DecidableEq β] (zero : β) (s : Select β α)
    (i j : Nat) : α × Select β α :=
  (Select.coeff zero s i j, s)

/-- `DenseBase::select(thenMatrix, elseMatrix)` (source lines 116-123):
constructs the node with the invoking expression as the condition. -/
def DenseBase.select {β α : Type} (cond : Mat β) (thn els : Mat α) :
    Option (Select β α) :=
  Select.make cond thn els

/-- `DenseBase::select(thenMatrix, elseScalar)` (source lines 130-138): the
scalar, of the then operand's element type, is promoted through
`ThenDerived::Constant(rows(), cols(), elseScalar)` where `rows()` and
`cols()` are the invoking (condition) expression's counts. -/
def DenseBase.selectScalarElse {β α : Type} (cond : Mat β) (thn : Mat α)
    (elseScalar : α) : Option (Select β α) :=
  Select.make cond thn (Mat.Constant cond.rows cond.cols elseScalar)

/-- `DenseBase::select(thenScalar, elseMatrix)` (source lines 145-153): the
scalar, of the else operand's element type, is promoted through
`ElseDerived::Constant(rows(), cols(), thenScalar)`. -/
def DenseBase.selectScalarThen {β α : Type} (cond : Mat β) (thenScalar : α)
    (els : Mat α) : Option (Select β α) :=
  Select.make cond (Mat.Constant cond.rows cond.cols thenScalar) els

/-- The reference form of the scalar-else overload written from the spec's
words: first build the constant expression of the invoking expression's shape
filled with the scalar, then call the two-matrix overload.  It is stated
separately so the overload of the source can be compared with it. -/
def selectScalarElseSpec {β α : Type} (cond : Mat β) (thn : Mat α) (k : α) :
    Option (Select β α) :=
  DenseBase.select cond thn (Mat.Constant cond.rows cond.cols k)

/-- Name-level model of a C++ element (scalar) type, used by the trait
descriptor layer. -/
inductive EType
  | eBool
  | eInt
  | eFloat
  | eDouble
deriving DecidableEq

/-- Name-level model of the expression-kind classification (`XprKind`). -/
inductive XKind
  | matrixXpr
  | arrayXpr
deriving DecidableEq

/-- Name-level model of the storage kind; `Select` always declares `Dense`
(source line 47). -/
inductive SKind
  | dense
deriving DecidableEq

/-- Structural flag bit: row-major element ordering. -/
def RowMajorBit : Nat := 1

/-- Structural flag bit: must evaluate before nesting. -/
def EvalBeforeNestingBit : Nat := 2

/-- Structural flag bit: must evaluate before assigning. -/
def EvalBeforeAssigningBit : Nat := 4

/-- Structural flag bit: linear coefficient access is available. -/
def LinearAccessBit : Nat := 16

/-- Modelled from the spec: the fixed heritable-flag mask `HereditaryBits`
(the set of flags safe to inherit through this operator, spec section 3); the
constant is declared in the library core outside the given source file. -/
def HereditaryBits : Nat :=
  RowMajorBit ||| EvalBeforeNestingBit ||| EvalBeforeAssigningBit

/-- Modelled from the spec: `EIGEN_SIZE_MAX` as applied to coefficient read
costs on source lines 59-60 takes the larger of the two costs (spec: the cost
is condition-cost plus the maximum of then-cost and else-cost); the macro is
defined outside the given source file. -/
def ei_size_max (a b : Nat) : Nat := if a ≥ b then a else b

/-- The trait descriptor of an expression node: element type, storage kind,
expression kind, compile-time shape bounds (`-1` standing for dynamic), the
structural flag bitset, and the per-coefficient read cost. -/
structure Traits where
  Scalar : EType
  StorageKind : SKind
  XprKind : XKind
  RowsAtCompileTime : Int
  ColsAtCompileTime : Int
  MaxRowsAtCompileTime : Int
  MaxColsAtCompileTime : Int
  Flags : Nat
  CoeffReadCost : Nat

/-- `ei_traits<Select<...>>` (source lines 42-61): element type, expression
kind from the then operand; compile-time shape from the condition operand;
flags the conjunction of the then and else flags under the heritable mask;
cost the condition cost plus the larger branch cost.  The traits of the
cleaned nested operand types are modelled as the operands' own traits: the
nesting utility lives outside the given source file. -/
def Select.traits (condT thenT elseT : Traits) : Traits :=
  { Scalar := thenT.Scalar
    StorageKind := SKind.dense
    XprKind := thenT.XprKind
    RowsAtCompileTime := condT.RowsAtCompileTime
    ColsAtCompileTime := condT.ColsAtCompileTime
    MaxRowsAtCompileTime := condT.MaxRowsAtCompileTime
    MaxColsAtCompileTime := condT.MaxColsAtCompileTime
    Flags := thenT.Flags &&& elseT.Flags &&& HereditaryBits
    CoeffReadCost := condT.CoeffReadCost
      + ei_size_max thenT.CoeffReadCost elseT.CoeffReadCost }

/-- Modelled from the spec: the trait descriptor of `D::ConstantReturnType`,
the element-type-aware constant-expression type of a derived expression `D`,
which keeps the derived expression's element type, kind and shape (spec
section 4.4); only those fields are relied on below, the type itself lives
outside the given source file. -/
def ConstantReturnTraits (t : Traits) : Traits :=
  { Scalar := t.Scalar
    StorageKind := t.StorageKind
    XprKind := t.XprKind
    RowsAtCompileTime := t.RowsAtCompileTime
    ColsAtCompileTime := t.ColsAtCompileTime
    MaxRowsAtCompileTime := t.MaxRowsAtCompileTime
    MaxColsAtCompileTime := t.MaxColsAtCompileTime
    Flags := t.Flags
    CoeffReadCost := t.CoeffReadCost }

/-- Concrete 2-by-2 boolean condition matrix of the spec's scenario,
`[[true, false], [false, true]]`, with column-major linear access. -/
def condW : Mat Bool :=
  { rows := 2, cols := 2
    coeff2 := fun i j => i == j
    coeff1 := fun k => k % 2 == k / 2 }

/-- Concrete 2-by-2 then matrix of the spec's scenario,
`[[1, 2], [3, 4]]`, with column-major linear access. -/
def thenW : Mat Int :=
  { rows := 2, cols := 2
    coeff2 := fun i j => ((2 * i + j + 1 : Nat) : Int)
    coeff1 := fun k => ((2 * (k % 2) + k / 2 + 1 : Nat) : Int) }

/-- Concrete 2-by-2 else matrix of the spec's scenario,
`[[10, 20], [30, 40]]`, with column-major linear access. -/
def elseW : Mat Int :=
  { rows := 2, cols := 2
    coeff2 := fun i j => ((10 * (2 * i + j + 1) : Nat) : Int)
    coeff1 := fun k => ((10 * (2 * (k % 2) + k / 2 + 1) : Nat) : Int) }

/-- The `Select` node built from the three concrete scenario matrices. -/
def selW : Select Bool Int :=
  { m_condition := condW, m_then := thenW, m_else := elseW }

/-- Column-major row coordinate of a linear index over two rows. -/
def toRowW (k : Nat) : Nat := k % 2

/-- Column-major column coordinate of a linear index over two rows. -/
def toColW (k : Nat) : Nat := k / 2

/-- Concrete 0-by-3 boolean condition matrix for the zero-size scenario. -/
def zcondW : Mat Bool :=
  { rows := 0, cols := 3, coeff2 := fun _ _ => false, coeff1 := fun _ => false }

/-- Concrete 0-by-3 then matrix for the zero-size scenario. -/
def zthenW : Mat Int :=
  { rows := 0, cols := 3, coeff2 := fun _ _ => 0, coeff1 := fun _ => 0 }

/-- Concrete 0-by-3 else matrix for the zero-size scenario. -/
def zelseW : Mat Int :=
  { rows := 0, cols := 3, coeff2 := fun _ _ => 0, coeff1 := fun _ => 0 }

/-- The `Select` node built from the zero-size scenario matrices. -/
def zselW : Select Bool Int :=
  { m_condition := zcondW, m_then := zthenW, m_else := zelseW }

/-- Concrete 2-by-3 boolean condition matrix for the mismatch scenario. -/
def mmCondW : Mat Bool :=
  { rows := 2, cols := 3, coeff2 := fun _ _ => true, coeff1 := fun _ => true }

/-- Concrete 2-by-2 then matrix for the mismatch scenario. -/
def mmThenW : Mat Int :=
  { rows := 2, cols := 2, coeff2 := fun _ _ => 1, coeff1 := fun _ => 1 }

/-- Concrete 2-by-3 else matrix for the mismatch scenario. -/
def mmElseW : Mat Int :=
  { rows := 2, cols := 3, coeff2 := fun _ _ => 2, coeff1 := fun _ => 2 }

/-- Concrete 1-by-2 condition matrix `[[true, false]]` of the scalar-else
scenario. -/
def scCondW : Mat Bool :=
  { rows := 1, cols := 2, coeff2 := fun _ j => j == 0, coeff1 := fun k => k == 0 }

/-- Concrete 1-by-2 then matrix `[[5, 6]]` of the scalar-else scenario. -/
def scThenW : Mat Int :=
  { rows := 1, cols := 2
    coeff2 := fun _ j => ((j + 5 : Nat) : Int)
    coeff1 := fun k => ((k + 5 : Nat) : Int) }

/-- The node the scalar-else overload builds in the scalar-else scenario with
scalar `0`. -/
def scSelW : Select Bool Int :=
  { m_condition := scCondW, m_then := scThenW, m_else := Mat.Constant 1 2 0 }

/-- A trait descriptor for the 0-by-3 zero-size scenario, used to instantiate
the trait-level part of the shape theorem. -/
def zTraitsW : Traits :=
  { Scalar := EType.eInt
    StorageKind := SKind.dense
    XprKind := XKind.matrixXpr
    RowsAtCompileTime := 0
    ColsAtCompileTime := 3
    MaxRowsAtCompileTime := 0
    MaxColsAtCompileTime := 3
    Flags := 0
    CoeffReadCost := 1 }

/-- Successful construction pins down the node: the stored operands are
exactly the three arguments. -/
theorem Select.make_eq_some {β α : Type} {c : Mat β} {t e : Mat α}
    {s : Select β α} (h : Select.make c t e = some s) :
    s = { m_condition := c, m_then := t, m_else := e } := by
  unfold Select.make at h
  split at h
  · exact (Option.some.injEq _ _ ▸ h).symm
  · exact absurd h (by simp)

/-- The constructor's assertion succeeds exactly when all three shapes
agree with the condition's. -/
theorem Select.assertOk_iff {β α : Type} (c : Mat β) (t e : Mat α) :
    Select.assertOk c t e = true ↔
      (c.rows = t.rows ∧ c.rows = e.rows ∧ c.cols = t.cols ∧ c.cols = e.cols) := by
  unfold Select.assertOk
  simp [Bool.and_eq_true, beq_iff_eq, and_assoc]

/-- C1: for operands of equal shape and every in-range coordinate `(i, j)`,
the node's `coeff(i, j)` equals the then coefficient when the condition
coefficient is truthy (not equal to the zero value of the condition element
type) and equals the else coefficient otherwise. -/
theorem select_coeff_dispatch {β α : Type} [DecidableEq β] (zero : β)
    (c : Mat β) (t e : Mat α) (s : Select β α) (i j : Nat)
    (hshape : c.rows = t.rows ∧ c.rows = e.rows ∧ c.cols = t.cols ∧ c.cols = e.cols)
    (hi : i < c.rows) (hj : j < c.cols)
    (hmk : Select.make c t e = some s) :
    (c.coeff2 i j ≠ zero → Select.coeff zero s i j = t.coeff2 i j) ∧
    (c.coeff2 i j = zero → Select.coeff zero s i j = e.coeff2 i j) := by
  have hs := Select.make_eq_some hmk
  subst hs
  refine ⟨fun h => ?_, fun h => ?_⟩
  · simp [Select.coeff, h]
  · simp [Select.coeff, h]

/-- C1 witness: the dispatch theorem applied to the spec's concrete scenario
at coordinate `(0, 1)`, where the condition coefficient is false. -/
theorem select_coeff_dispatch_witness :
    (condW.coeff2 0 1 ≠ false → Select.coeff false selW 0 1 = thenW.coeff2 0 1) ∧
    (condW.coeff2 0 1 = false → Select.coeff false selW 0 1 = elseW.coeff2 0 1) :=
  select_coeff_dispatch false condW thenW elseW selW 0 1
    ⟨rfl, rfl, rfl, rfl⟩ (by decide) (by decide) rfl

/-- C2: every node produced by any of the three factory overloads has the
invoking (condition) expression's row and column counts as its shape, and the
trait descriptor takes its compile-time shape from the condition operand. -/
theorem select_shape_eq_condition {β α : Type}
    (cond : Mat β) (thn els : Mat α) (k k2 : α) (condT thenT elseT : Traits) :
    (∀ s, DenseBase.select cond thn els = some s →
        Select.rows s = cond.rows ∧ Select.cols s = cond.cols) ∧
    (∀ s, DenseBase.selectScalarElse cond thn k = some s →
        Select.rows s = cond.rows ∧ Select.cols s = cond.cols) ∧
    (∀ s, DenseBase.selectScalarThen cond k2 els = some s →
        Select.rows s = cond.rows ∧ Select.cols s = cond.cols) ∧
    (Select.traits condT thenT elseT).RowsAtCompileTime = condT.RowsAtCompileTime ∧
    (Select.traits condT thenT elseT).ColsAtCompileTime = condT.ColsAtCompileTime := by
  refine ⟨fun s h => ?_, fun s h => ?_, fun s h => ?_, rfl, rfl⟩
  · have hs := Select.make_eq_some h
    subst hs
    exact ⟨rfl, rfl⟩
  · have hs := Select.make_eq_some h
    subst hs
    exact ⟨rfl, rfl⟩
  · have hs := Select.make_eq_some h
    subst hs
    exact ⟨rfl, rfl⟩

/-- C2 witness: the shape theorem applied to the zero-size 0-by-3 scenario,
through the two-matrix overload. -/
theorem select_shape_eq_condition_witness :
    Select.rows zselW = 0 ∧ Select.cols zselW = 3 :=
  (select_shape_eq_condition zcondW zthenW zelseW 0 0
      zTraitsW zTraitsW zTraitsW).1 zselW rfl

/-- C3: construction fails its assertion exactly when some row or column
count differs among the three operands; on a mismatch no node is produced
(nothing is truncated or broadcast), and under the equal-shape precondition
the failure branch is unreachable and the node stores the operands as
given. -/
theorem select_ctor_assert_iff_shape_mismatch {β α : Type} (c : Mat β)
    (t e : Mat α) :
    (Select.make c t e = none ↔
      ¬ (c.rows = t.rows ∧ t.rows = e.rows ∧ c.cols = t.cols ∧ t.cols = e.cols)) ∧
    (c.rows = t.rows ∧ t.rows = e.rows ∧ c.cols = t.cols ∧ t.cols = e.cols →
      Select.make c t e = some { m_condition := c, m_then := t, m_else := e }) := by
  have hiff : Select.assertOk c t e = true ↔
      (c.rows = t.rows ∧ t.rows = e.rows ∧ c.cols = t.cols ∧ t.cols = e.cols) := by
    rw [Select.assertOk_iff]
    constructor
    · rintro ⟨h1, h2, h3, h4⟩
      exact ⟨h1, h1 ▸ h2, h3, h3 ▸ h4⟩
    · rintro ⟨h1, h2, h3, h4⟩
      exact ⟨h1, h1.trans h2, h3, h3.trans h4⟩
  constructor
  · unfold Select.make
    split
    · rename_i hok
      simp only [reduceCtorEq, false_iff, not_not]
      exact hiff.mp hok
    · rename_i hok
      simp only [true_iff]
      intro hagree
      exact hok (hiff.mpr hagree)
  · intro hagree
    unfold Select.make
    rw [if_pos (hiff.mpr hagree)]

/-- C3 witness: the assertion theorem applied to the spec's mismatch
scenario (condition 2-by-3, then 2-by-2, else 2-by-3): no node is
produced. -/
theorem select_ctor_assert_iff_shape_mismatch_witness :
    Select.make mmCondW mmThenW mmElseW = none :=
  ((select_ctor_assert_iff_shape_mismatch mmCondW mmThenW mmElseW).1).mpr
    (by decide)

/-- C4: the trait descriptor's per-coefficient read cost is the condition
operand's cost plus the maximum of the then and else operand costs. -/
theorem select_coeff_read_cost (condT thenT elseT : Traits) :
    (Select.traits condT thenT elseT).CoeffReadCost =
      condT.CoeffReadCost + max thenT.CoeffReadCost elseT.CoeffReadCost := by
  show condT.CoeffReadCost + ei_size_max thenT.CoeffReadCost elseT.CoeffReadCost
      = condT.CoeffReadCost + max thenT.CoeffReadCost elseT.CoeffReadCost
  unfold ei_size_max
  split <;> omega

/-- C5: the node's flags are the conjunction of the then and else operand
flags intersected with the fixed heritable-flag mask, and the condition
operand's flags contribute nothing: replacing them changes no node flag. -/
theorem select_flags_heritable (condT thenT elseT : Traits) (f : Nat) :
    (Select.traits condT thenT elseT).Flags =
      thenT.Flags &&& elseT.Flags &&& HereditaryBits ∧
    (Select.traits { condT with Flags := f } thenT elseT).Flags =
      (Select.traits condT thenT elseT).Flags :=
  ⟨rfl, rfl⟩

/-- C6: the scalar-else overload yields, at every coordinate, the same
coefficient as selecting against the explicitly built constant expression of
the invoking expression's shape filled with the scalar. -/
theorem select_scalar_else_promotion_equiv {β α : Type} [DecidableEq β]
    (zero : β) (cond : Mat β) (thn : Mat α) (k : α) (s s2 : Select β α)
    (i j : Nat)
    (h1 : DenseBase.selectScalarElse cond thn k = some s)
    (h2 : selectScalarElseSpec cond thn k = some s2) :
    Select.coeff zero s i j = Select.coeff zero s2 i j := by
  have hsame : DenseBase.selectScalarElse cond thn k
      = selectScalarElseSpec cond thn k := rfl
  rw [hsame, h2] at h1
  rw [Option.some.injEq] at h1
  rw [h1]

/-- C6 witness: the promotion-equivalence theorem applied to the spec's
scalar-else scenario (condition `[[true, false]]`, then `[[5, 6]]`, scalar 0)
at coordinate `(0, 1)`. -/
theorem select_scalar_else_promotion_equiv_witness :
    Select.coeff false scSelW 0 1 = Select.coeff false scSelW 0 1 :=
  select_scalar_else_promotion_equiv false scCondW scThenW 0 scSelW scSelW 0 1
    rfl rfl

/-- C7: a coefficient read is pure and idempotent: in state-passing form two
successive reads return equal values, the state after both reads is the
initial state, and no operand of the node is changed by a read. -/
theorem select_coeff_idempotent_pure {β α : Type} [DecidableEq β] (zero : β)
    (s : Select β α) (i j : Nat) :
    (Select.coeffCall zero s i j).1
        = (Select.coeffCall zero (Select.coeffCall zero s i j).2 i j).1 ∧
    (Select.coeffCall zero (Select.coeffCall zero s i j).2 i j).2 = s ∧
    (Select.coeffCall zero s i j).2.m_condition = s.m_condition ∧
    (Select.coeffCall zero s i j).2.m_then = s.m_then ∧
    (Select.coeffCall zero s i j).2.m_else = s.m_else :=
  ⟨rfl, rfl, rfl, rfl, rfl⟩

/-- C8: whenever all three operands support linear access agreeing with
their two-index access at the coordinate a linear index denotes, the node's
linear `coeff(i)` performs the same dispatch as the two-index accessor —
then-coefficient when the condition is truthy, else-coefficient otherwise —
and agrees with `coeff(row, col)` at that coordinate. -/
theorem select_linear_coeff_dispatch {β α : Type} [DecidableEq β] (zero : β)
    (s : Select β α) (toRow toCol : Nat → Nat) (i : Nat)
    (hc : s.m_condition.coeff1 i = s.m_condition.coeff2 (toRow i) (toCol i))
    (ht : s.m_then.coeff1 i = s.m_then.coeff2 (toRow i) (toCol i))
    (he : s.m_else.coeff1 i = s.m_else.coeff2 (toRow i) (toCol i)) :
    (s.m_condition.coeff1 i ≠ zero →
      Select.coeffLin zero s i = s.m_then.coeff1 i) ∧
    (s.m_condition.coeff1 i = zero →
      Select.coeffLin zero s i = s.m_else.coeff1 i) ∧
    Select.coeffLin zero s i = Select.coeff zero s (toRow i) (toCol i) := by
  refine ⟨fun h => ?_, fun h => ?_, ?_⟩
  · simp [Select.coeffLin, h]
  · simp [Select.coeffLin, h]
  · unfold Select.coeffLin Select.coeff
    rw [hc, ht, he]

/-- C8 witness: the linear-dispatch theorem applied to the concrete scenario
node at linear index 2 under column-major coordinates. -/
theorem select_linear_coeff_dispatch_witness :
    (selW.m_condition.coeff1 2 ≠ false →
      Select.coeffLin false selW 2 = selW.m_then.coeff1 2) ∧
    (selW.m_condition.coeff1 2 = false →
      Select.coeffLin false selW 2 = selW.m_else.coeff1 2) ∧
    Select.coeffLin false selW 2 = Select.coeff false selW (toRowW 2) (toColW 2) :=
  select_linear_coeff_dispatch false selW toRowW toColW 2 rfl rfl rfl

/-- C9: the trait descriptor takes its element type and its expression-kind
classification from the then operand, whatever the three operand trait
descriptors are. -/
theorem select_traits_scalar_from_then (condT thenT elseT : Traits) :
    (Select.traits condT thenT elseT).Scalar = thenT.Scalar ∧
    (Select.traits condT thenT elseT).XprKind = thenT.XprKind :=
  ⟨rfl, rfl⟩

/-- C10: the scalar overloads promote through the matrix operand's own
constant-expression type, so the scalar-else node keeps the then operand's
element type and the scalar-then node takes the else operand's element type;
at the value level each overload is construction against the constant
expression of the invoking shape filled with the scalar of the matrix
operand's element type. -/
theorem select_scalar_overload_types {β α : Type} (condT thenT elseT : Traits)
    (cond : Mat β) (thn els : Mat α) (k k2 : α) :
    (Select.traits condT thenT (ConstantReturnTraits thenT)).Scalar
        = thenT.Scalar ∧
    (Select.traits condT (ConstantReturnTraits elseT) elseT).Scalar
        = elseT.Scalar ∧
    DenseBase.selectScalarElse cond thn k =
      Select.make cond thn (Mat.Constant cond.rows cond.cols k) ∧
    DenseBase.selectScalarThen cond k2 els =
      Select.make cond (Mat.Constant cond.rows cond.cols k2) els :=
  ⟨rfl, rfl, rfl, rfl⟩

end Eigen
